import Mathlib

/-!
Shallow embedding of the camera-server core of the esp32p4-ov5647 repository
(src/main/camera_server.c and src/main/face_detect_task.cpp).

External collaborators (the V4L2 capture device, the HTTP transport, the JPEG
hardware encoder, heap allocation, FreeRTOS primitives) are modelled as
environments recording the outcome of each call; the handlers are translated
into functions from such an environment to an ESP result code together with a
trace of the observable events they perform (lock acquire/release, device
ioctls, mmap/munmap, HTTP error responses, encode attempts).
-/

/-- ESP-IDF result codes used by the translated functions. -/
inductive EspErr where
  | ok
  | fail
  | noMem
  | invalidState
  | notSupported
  | invalidArg
deriving DecidableEq, Repr

/-- The kinds of V4L2 ioctl issued on the camera file descriptor. -/
inductive IoK where
  | reqbufs
  | querybuf
  | qbuf
  | streamon
  | dqbuf
  | streamoff
  | getFmt
  | setFmt
deriving DecidableEq, Repr

/-- Observable events of a handler or task run. -/
inductive Ev where
  | acqOk
  | acqFail
  | rel
  | ioc (k : IoK)
  | respErr (code : Nat) (msg : String)
  | mapOk (i : Nat)
  | mapFail (i : Nat)
  | unmap (i : Nat)
  | encode (ok : Bool)
deriving DecidableEq, Repr

/-- State of one slot of the mapped-buffer array.  `unset` is a NULL address
(calloc zero fill, or the explicit NULL store after a failed mmap); `mapfail`
is the MAP_FAILED sentinel; `mapped` is a valid mapping. -/
inductive Slot where
  | unset
  | mapfail
  | mapped
deriving DecidableEq, Repr

/-- CAMERA_LOCK_TIMEOUT_MS from camera_server.c. -/
def cameraLockTimeoutMs : Nat := 10000

/-- STREAM_BUFFER_COUNT from camera_server.c. -/
def streamBufferCount : Nat := 3

/-- Per-iteration outcome of the MJPEG streaming loop of stream_handler:
either the DQBUF ioctl fails (with or without errno EINTR), or the dequeued
buffer lacks V4L2_BUF_FLAG_DONE, or a full frame is processed with the given
outcomes for the JPEG encode, the boundary chunk send, the part
(header + payload) chunk sends, and the final requeue QBUF. -/
inductive StreamStep where
  | dqFail (eintr : Bool)
  | notDone
  | frame (encOk sendBOk sendPOk requeueOk : Bool)
deriving DecidableEq, Repr

/-- Environment of one stream_handler run: outcomes of each external call. -/
structure StreamEnv where
  lockOk : Bool
  reqbufs : Option Nat
  callocOk : Bool
  qryOk : Nat → Bool
  mmOk : Nat → Bool
  enqOk : Nat → Bool
  streamonOk : Bool
  steps : List StreamStep

/-- The per-index setup loop shared by stream_handler and init_v4l2_buffers:
for each buffer index query the descriptor, mmap it (storing NULL back on
MAP_FAILED), and queue it to the hardware; abort on the first failure.
Returns the slot array for the remaining indices, the event trace, and
whether the whole loop succeeded.  `i` is the absolute index of the first
remaining slot and the numeral argument counts the remaining slots. -/
def setupBufs (qry mm enq : Nat → Bool) (i : Nat) : Nat → List Slot × List Ev × Bool
  | 0 => ([], [], true)
  | n + 1 =>
    if qry i = false then
      (List.replicate (n + 1) Slot.unset, [Ev.ioc IoK.querybuf], false)
    else if mm i = false then
      (List.replicate (n + 1) Slot.unset, [Ev.ioc IoK.querybuf, Ev.mapFail i], false)
    else if enq i = false then
      (Slot.mapped :: List.replicate n Slot.unset,
       [Ev.ioc IoK.querybuf, Ev.mapOk i, Ev.ioc IoK.qbuf], false)
    else
      let r := setupBufs qry mm enq (i + 1) n
      (Slot.mapped :: r.1,
       Ev.ioc IoK.querybuf :: Ev.mapOk i :: Ev.ioc IoK.qbuf :: r.2.1,
       r.2.2)

/-- Teardown of stream_handler: munmap every slot whose address is non-NULL
(the guard in the C code is `if (buffers[i].addr)`). -/
def unmapEvents : Nat → List Slot → List Ev
  | _, [] => []
  | i, s :: rest =>
    if s = Slot.unset then unmapEvents (i + 1) rest
    else Ev.unmap i :: unmapEvents (i + 1) rest

/-- Teardown of the detection task (release_buffers): munmap every slot whose
address is non-NULL and not MAP_FAILED (`buffer.addr && buffer.addr !=
MAP_FAILED`). -/
def detUnmapEvents : Nat → List Slot → List Ev
  | _, [] => []
  | i, s :: rest =>
    if s = Slot.mapped then Ev.unmap i :: detUnmapEvents (i + 1) rest
    else detUnmapEvents (i + 1) rest

/-- The steady-state while(1) loop of stream_handler, driven by a finite
script of per-iteration outcomes.  The Bool result is false when the loop
exited by a break that set ret = ESP_FAIL; it is true only when the script
ran out, i.e. the observation ended while the loop was still running. -/
def runLoop : List StreamStep → List Ev × Bool
  | [] => ([], true)
  | StreamStep.dqFail _ :: _ => ([Ev.ioc IoK.dqbuf], false)
  | StreamStep.notDone :: rest =>
    let r := runLoop rest
    (Ev.ioc IoK.dqbuf :: Ev.ioc IoK.qbuf :: r.1, r.2)
  | StreamStep.frame encOk sendBOk sendPOk requeueOk :: rest =>
    if encOk = false then
      ([Ev.ioc IoK.dqbuf, Ev.encode false, Ev.ioc IoK.qbuf], false)
    else if sendBOk = false then
      ([Ev.ioc IoK.dqbuf, Ev.encode true, Ev.ioc IoK.qbuf], false)
    else if sendPOk = false then
      ([Ev.ioc IoK.dqbuf, Ev.encode true, Ev.ioc IoK.qbuf], false)
    else if requeueOk = false then
      ([Ev.ioc IoK.dqbuf, Ev.encode true, Ev.ioc IoK.qbuf], false)
    else
      let r := runLoop rest
      (Ev.ioc IoK.dqbuf :: Ev.encode true :: Ev.ioc IoK.qbuf :: r.1, r.2)

/-- stream_handler from camera_server.c: acquire the camera lock (500 "Camera
busy" on denial), request STREAM_BUFFER_COUNT buffers, calloc the descriptor
array, query/mmap/queue each buffer, stream on, run the MJPEG loop, and on
every exit path run the cleanup label: stream off if started, munmap the
non-NULL slots, free the array, release the lock. -/
def stream_handler (env : StreamEnv) : EspErr × List Ev :=
  if env.lockOk = false then
    (EspErr.fail, [Ev.acqFail, Ev.respErr 500 "Camera busy"])
  else
    match env.reqbufs with
    | none =>
      (EspErr.fail,
       [Ev.acqOk, Ev.ioc IoK.reqbufs, Ev.respErr 500 "Unable to alloc buffers", Ev.rel])
    | some n =>
      if n = 0 then
        (EspErr.fail,
         [Ev.acqOk, Ev.ioc IoK.reqbufs, Ev.respErr 500 "Unable to alloc buffers", Ev.rel])
      else if env.callocOk = false then
        (EspErr.noMem,
         [Ev.acqOk, Ev.ioc IoK.reqbufs, Ev.respErr 500 "Out of memory", Ev.rel])
      else
        let s := setupBufs env.qryOk env.mmOk env.enqOk 0 n
        if s.2.2 = false then
          (EspErr.fail,
           Ev.acqOk :: Ev.ioc IoK.reqbufs :: s.2.1 ++ unmapEvents 0 s.1 ++ [Ev.rel])
        else if env.streamonOk = false then
          (EspErr.fail,
           Ev.acqOk :: Ev.ioc IoK.reqbufs :: s.2.1 ++ [Ev.ioc IoK.streamon]
             ++ unmapEvents 0 s.1 ++ [Ev.rel])
        else
          let l := runLoop env.steps
          ((if l.2 then EspErr.ok else EspErr.fail),
           Ev.acqOk :: Ev.ioc IoK.reqbufs :: s.2.1 ++ [Ev.ioc IoK.streamon]
             ++ l.1 ++ [Ev.ioc IoK.streamoff] ++ unmapEvents 0 s.1 ++ [Ev.rel])

/-- Environment of one capture_handler run (single buffer, single frame). -/
structure CaptureEnv where
  lockOk : Bool
  reqbufs : Option Nat
  qryOk : Bool
  mmOk : Bool
  enqOk : Bool
  streamonOk : Bool
  dqOk : Bool
  encOk : Bool
  sendOk : Bool

/-- capture_handler from camera_server.c: acquire the lock (500 "Camera busy"
on denial), request 1 buffer, query/mmap/queue it, stream on, dequeue one
frame, JPEG encode and send it, then the cleanup label: stream off if
started, munmap the buffer if its address is non-NULL, release the lock. -/
def capture_handler (env : CaptureEnv) : EspErr × List Ev :=
  if env.lockOk = false then
    (EspErr.fail, [Ev.acqFail, Ev.respErr 500 "Camera busy"])
  else
    match env.reqbufs with
    | none =>
      (EspErr.fail,
       [Ev.acqOk, Ev.ioc IoK.reqbufs, Ev.respErr 500 "Unable to alloc buffer", Ev.rel])
    | some n =>
      if n = 0 then
        (EspErr.fail,
         [Ev.acqOk, Ev.ioc IoK.reqbufs, Ev.respErr 500 "Unable to alloc buffer", Ev.rel])
      else if env.qryOk = false then
        (EspErr.fail, [Ev.acqOk, Ev.ioc IoK.reqbufs, Ev.ioc IoK.querybuf, Ev.rel])
      else if env.mmOk = false then
        (EspErr.fail,
         [Ev.acqOk, Ev.ioc IoK.reqbufs, Ev.ioc IoK.querybuf, Ev.mapFail 0, Ev.rel])
      else if env.enqOk = false then
        (EspErr.fail,
         [Ev.acqOk, Ev.ioc IoK.reqbufs, Ev.ioc IoK.querybuf, Ev.mapOk 0,
          Ev.ioc IoK.qbuf, Ev.unmap 0, Ev.rel])
      else if env.streamonOk = false then
        (EspErr.fail,
         [Ev.acqOk, Ev.ioc IoK.reqbufs, Ev.ioc IoK.querybuf, Ev.mapOk 0,
          Ev.ioc IoK.qbuf, Ev.ioc IoK.streamon, Ev.unmap 0, Ev.rel])
      else if env.dqOk = false then
        (EspErr.fail,
         [Ev.acqOk, Ev.ioc IoK.reqbufs, Ev.ioc IoK.querybuf, Ev.mapOk 0,
          Ev.ioc IoK.qbuf, Ev.ioc IoK.streamon, Ev.ioc IoK.dqbuf,
          Ev.ioc IoK.streamoff, Ev.unmap 0, Ev.rel])
      else if env.encOk = false then
        (EspErr.fail,
         [Ev.acqOk, Ev.ioc IoK.reqbufs, Ev.ioc IoK.querybuf, Ev.mapOk 0,
          Ev.ioc IoK.qbuf, Ev.ioc IoK.streamon, Ev.ioc IoK.dqbuf, Ev.encode false,
          Ev.ioc IoK.streamoff, Ev.unmap 0, Ev.rel])
      else
        ((if env.sendOk then EspErr.ok else EspErr.fail),
         [Ev.acqOk, Ev.ioc IoK.reqbufs, Ev.ioc IoK.querybuf, Ev.mapOk 0,
          Ev.ioc IoK.qbuf, Ev.ioc IoK.streamon, Ev.ioc IoK.dqbuf, Ev.encode true,
          Ev.ioc IoK.streamoff, Ev.unmap 0, Ev.rel])

/-- Pixel formats appearing in the repository (V4L2_PIX_FMT_*). -/
inductive PixFmt where
  | rgb565
  | rgb24
  | yuv422p
  | grey
  | jpeg
  | raw10
  | other
deriving DecidableEq, Repr

/-- The fields of struct v4l2_format that the repository reads and stores. -/
structure Fmt where
  width : Nat
  height : Nat
  pixfmt : PixFmt
deriving DecidableEq, Repr

/-- Device responses to the two format ioctls: the G_FMT result (none when
the ioctl fails) and, for each requested format, the S_FMT result (none when
the ioctl fails, otherwise the format as written back by the driver). -/
structure CfgEnv where
  getFmtRes : Option Fmt
  setFmtRes : Fmt → Option Fmt

/-- configure_camera_device from camera_server.c.  Reads the current device
format; overwrites width/height with the configured desired resolution when
both are positive; if the pixel format is not already RGB565 tries S_FMT with
RGB565 and then with YUV422P, adopting the first struct that succeeds; stores
the resulting format in the shared stream state.  Returns the stored format
(none when G_FMT failed, in which case the handler aborts) together with the
list of formats passed to S_FMT. -/
def configure_camera_device (env : CfgEnv) (desiredW desiredH : Nat) :
    Option Fmt × List Fmt :=
  match env.getFmtRes with
  | none => (none, [])
  | some f0 =>
    let f1 := if 0 < desiredW ∧ 0 < desiredH then
        { f0 with width := desiredW, height := desiredH } else f0
    if f1.pixfmt = PixFmt.rgb565 then (some f1, [])
    else
      let rgbReq := { f1 with pixfmt := PixFmt.rgb565 }
      match env.setFmtRes rgbReq with
      | some f2 => (some f2, [rgbReq])
      | none =>
        let yuvReq := { f1 with pixfmt := PixFmt.yuv422p }
        match env.setFmtRes yuvReq with
        | some f2 => (some f2, [rgbReq, yuvReq])
        | none => (some f1, [rgbReq, yuvReq])

/-- JPEG hardware encoder input formats used in jpeg_encoder_init. -/
inductive EncInFormat where
  | rgb565
  | rgb888
  | yuv422
  | gray
deriving DecidableEq, Repr

/-- Chroma sub-sampling modes used in jpeg_encoder_init. -/
inductive SubSample where
  | yuv444
  | yuv422
  | gray
deriving DecidableEq, Repr

/-- The switch at the top of jpeg_encoder_init: encoder input format, chroma
sub-sampling and bits-per-pixel for each recognized pixel format, none for
every other format. -/
def fmtParams : PixFmt → Option (EncInFormat × SubSample × Nat)
  | PixFmt.rgb565 => some (EncInFormat.rgb565, SubSample.yuv422, 16)
  | PixFmt.rgb24 => some (EncInFormat.rgb888, SubSample.yuv444, 24)
  | PixFmt.yuv422p => some (EncInFormat.yuv422, SubSample.yuv422, 16)
  | PixFmt.grey => some (EncInFormat.gray, SubSample.gray, 8)
  | _ => none

/-- s_jpeg_state from camera_server.c (the EncoderContext of the spec).
`handleAlloc` models whether the encoder engine handle is non-NULL,
`outBufAlloc` whether the output buffer is allocated. -/
structure JpegState where
  handleAlloc : Bool
  srcFormat : Option EncInFormat
  subSample : Option SubSample
  srcStride : Nat
  outBufAlloc : Bool
  outBufSize : Nat
  quality : Nat
  configured : Bool
deriving DecidableEq, Repr

/-- The zero-filled initial s_jpeg_state ({0} in C). -/
def jpegStateZero : JpegState :=
  { handleAlloc := false, srcFormat := none, subSample := none, srcStride := 0,
    outBufAlloc := false, outBufSize := 0, quality := 0, configured := false }

/-- Outcomes of the two allocations jpeg_encoder_init performs: engine
creation, and the output-buffer allocation (none = failure, otherwise the
actual size the allocator reports). -/
structure EncEnv where
  newEngineOk : Bool
  allocRes : Option Nat

/-- jpeg_encoder_init from camera_server.c, acting on a given s_jpeg_state
with the negotiated width/height/pixformat of the shared stream state.
Unrecognized formats fail with ESP_ERR_NOT_SUPPORTED before anything is
allocated; an engine-creation failure returns its error with no handle
stored; an output-buffer allocation failure deletes the engine, clears the
handle and returns ESP_ERR_NO_MEM; on success the whole context is filled in
and the flag is set. -/
def jpeg_encoder_init (env : EncEnv) (width height : Nat) (pixfmt : PixFmt)
    (st : JpegState) : EspErr × JpegState :=
  if st.configured then (EspErr.ok, st)
  else
    match fmtParams pixfmt with
    | none => (EspErr.notSupported, st)
    | some p =>
      if env.newEngineOk = false then (EspErr.fail, st)
      else
        let stride := width * height * p.2.2 / 8
        match env.allocRes with
        | none => (EspErr.noMem, { st with handleAlloc := false })
        | some actual =>
          (EspErr.ok,
           { handleAlloc := true, srcFormat := some p.1, subSample := some p.2.1,
             srcStride := stride, outBufAlloc := true,
             outBufSize := if actual = 0 then stride else actual,
             quality := 75, configured := true })

/-- Per-iteration outcome of the detection task loop: the stop flag observed
set at the loop head; a DQBUF failure with errno EINTR; a DQBUF failure with
the stop flag found set afterwards; any other DQBUF failure; or a processed
frame with the given requeue outcome. -/
inductive DetStep where
  | stopFlag
  | dqEintr
  | dqFailStopped
  | dqFail
  | frame (requeueOk : Bool)
deriving DecidableEq, Repr

/-- Environment of one detection_task run. -/
structure DetEnv where
  detectorOk : Bool
  getFmtRes : Option Fmt
  setFmtOk : Bool
  reqbufs : Option Nat
  qryOk : Nat → Bool
  mmOk : Nat → Bool
  enqOk : Nat → Bool
  streamonOk : Bool
  steps : List DetStep

/-- The while (!should_stop) loop of detection_task: EINTR dequeue failures
retry in place; any other dequeue failure breaks; a processed frame is handed
to the detector and requeued, a requeue failure breaks. -/
def detLoop : List DetStep → List Ev
  | [] => []
  | DetStep.stopFlag :: _ => []
  | DetStep.dqEintr :: rest => Ev.ioc IoK.dqbuf :: detLoop rest
  | DetStep.dqFailStopped :: _ => [Ev.ioc IoK.dqbuf]
  | DetStep.dqFail :: _ => [Ev.ioc IoK.dqbuf]
  | DetStep.frame requeueOk :: rest =>
    if requeueOk = false then [Ev.ioc IoK.dqbuf, Ev.ioc IoK.qbuf]
    else Ev.ioc IoK.dqbuf :: Ev.ioc IoK.qbuf :: detLoop rest

/-- The buffer/stream part of detection_task after its configure step
succeeded: request buffers, query/mmap/queue each, stream on, run the loop,
then stream off (only if it was started) and release_buffers. -/
def detAfterCfg (env : DetEnv) (pre : List Ev) : List Ev :=
  match env.reqbufs with
  | none => pre ++ [Ev.ioc IoK.reqbufs]
  | some n =>
    if n = 0 then pre ++ [Ev.ioc IoK.reqbufs]
    else
      let s := setupBufs env.qryOk env.mmOk env.enqOk 0 n
      if s.2.2 = false then
        pre ++ Ev.ioc IoK.reqbufs :: s.2.1 ++ detUnmapEvents 0 s.1
      else if env.streamonOk = false then
        pre ++ Ev.ioc IoK.reqbufs :: s.2.1 ++ [Ev.ioc IoK.streamon]
          ++ detUnmapEvents 0 s.1
      else
        pre ++ Ev.ioc IoK.reqbufs :: s.2.1 ++ [Ev.ioc IoK.streamon]
          ++ detLoop env.steps ++ [Ev.ioc IoK.streamoff] ++ detUnmapEvents 0 s.1

/-- detection_task from face_detect_task.cpp: bail out if the detector is
missing; run its own configure_camera_device (G_FMT, then S_FMT to RGB565
only when the current format differs, failure fatal); then buffers, stream
on, the detection loop, and the unconditional teardown.  No camera lock is
ever taken or given: the function has no access to the lock that
camera_server.c keeps file-static. -/
def detection_task_run (env : DetEnv) : List Ev :=
  if env.detectorOk = false then []
  else
    match env.getFmtRes with
    | none => [Ev.ioc IoK.getFmt]
    | some f =>
      if f.pixfmt = PixFmt.rgb565 then
        detAfterCfg env [Ev.ioc IoK.getFmt]
      else if env.setFmtOk then
        detAfterCfg env [Ev.ioc IoK.getFmt, Ev.ioc IoK.setFmt]
      else
        [Ev.ioc IoK.getFmt, Ev.ioc IoK.setFmt]

/-- The FreeRTOS mutex behind the camera lock: whether
xSemaphoreCreateMutex succeeded (s_stream_state.lock non-NULL) and which
task, if any, currently holds it. -/
structure LockState where
  created : Bool
  holder : Option Nat
deriving DecidableEq, Repr

/-- xSemaphoreGive on a FreeRTOS mutex: succeeds and frees the mutex when the
calling task is the holder; otherwise fails and leaves the mutex unchanged. -/
def semGive (st : LockState) (caller : Nat) : LockState × Bool :=
  if st.holder = some caller then ({ st with holder := none }, true)
  else (st, false)

/-- xSemaphoreTake with a timeout, observed at the deadline: grants the mutex
when it is free and no other contender won the wait, else reports denial. -/
def semTake (st : LockState) (caller : Nat) (won : Bool) : LockState × Bool :=
  if st.holder = none ∧ won then ({ st with holder := some caller }, true)
  else (st, false)

/-- camera_lock_release from camera_server.c: give the semaphore only when it
was successfully created. -/
def camera_lock_release (st : LockState) (caller : Nat) : LockState :=
  if st.created then (semGive st caller).1 else st

/-- camera_lock_acquire from camera_server.c: false when the lock was never
created, else the outcome of a bounded-timeout take. -/
def camera_lock_acquire (st : LockState) (caller : Nat) (won : Bool) :
    LockState × Bool :=
  if st.created = false then (st, false) else semTake st caller won

/-- Coarse actions of the two public start entry points. -/
inductive Act where
  | devIoctl
  | httpdStart
  | uriRegister
  | detectorNew
  | taskCreate
deriving DecidableEq, Repr

/-- Environment of camera_server_start: mutex creation, the device responses
for configure_camera_device, the configured desired resolution, the encoder
allocation outcomes, and whether httpd_start succeeds. -/
structure ServerEnv where
  lockCreateOk : Bool
  cfg : CfgEnv
  desiredW : Nat
  desiredH : Nat
  enc : EncEnv
  httpdOk : Bool

/-- camera_server_start from camera_server.c: reject a negative fd with
ESP_ERR_INVALID_ARG before doing anything; then create the lock, configure
the device, initialize the JPEG encoder from the zero state, and start the
HTTP server, registering the three URI handlers. -/
def camera_server_start (fd : Int) (env : ServerEnv) : EspErr × List Act :=
  if fd < 0 then (EspErr.invalidArg, [])
  else if env.lockCreateOk = false then (EspErr.noMem, [])
  else
    match (configure_camera_device env.cfg env.desiredW env.desiredH).1 with
    | none => (EspErr.fail, [Act.devIoctl])
    | some f =>
      let r := jpeg_encoder_init env.enc f.width f.height f.pixfmt jpegStateZero
      if r.1 = EspErr.ok then
        if env.httpdOk then (EspErr.ok, [Act.devIoctl, Act.httpdStart, Act.uriRegister])
        else (EspErr.fail, [Act.devIoctl, Act.httpdStart])
      else (r.1, [Act.devIoctl])

/-- Environment of face_detect_start (with face detection enabled in the
build): whether a detection task is already running and whether
xTaskCreatePinnedToCore succeeds. -/
structure DetStartEnv where
  running : Bool
  taskCreateOk : Bool

/-- face_detect_start from face_detect_task.cpp: reject a negative fd with
ESP_ERR_INVALID_ARG, then an already-running task with ESP_ERR_INVALID_STATE,
before allocating the detector or creating the task; a task-creation failure
deletes the freshly allocated detector and returns ESP_FAIL. -/
def face_detect_start (fd : Int) (env : DetStartEnv) : EspErr × List Act :=
  if fd < 0 then (EspErr.invalidArg, [])
  else if env.running then (EspErr.invalidState, [])
  else if env.taskCreateOk then (EspErr.ok, [Act.detectorNew, Act.taskCreate])
  else (EspErr.fail, [Act.detectorNew])

/-- True on the lock-release event. -/
def isRel : Ev → Bool
  | Ev.rel => true
  | _ => false

/-- True on the successful lock-acquisition event. -/
def isAcq : Ev → Bool
  | Ev.acqOk => true
  | _ => false

/-- True on every device-ioctl event. -/
def isIoc : Ev → Bool
  | Ev.ioc _ => true
  | _ => false

/-- True on the dequeue ioctl event. -/
def isDq : Ev → Bool
  | Ev.ioc IoK.dqbuf => true
  | _ => false

/-- Number of events of a trace satisfying a predicate. -/
def evCount (p : Ev → Bool) (tr : List Ev) : Nat := (tr.filter p).length

/-- The sequence of buffer indices successfully mapped during a run. -/
def mapOkIdxs (tr : List Ev) : List Nat :=
  tr.filterMap fun e => match e with
    | Ev.mapOk i => some i
    | _ => none

/-- The sequence of buffer indices unmapped during a run. -/
def unmapIdxs (tr : List Ev) : List Nat :=
  tr.filterMap fun e => match e with
    | Ev.unmap i => some i
    | _ => none

theorem evCount_nil (p : Ev → Bool) : evCount p [] = 0 := rfl

theorem evCount_cons (p : Ev → Bool) (a : Ev) (tr : List Ev) :
    evCount p (a :: tr) = (if p a = true then 1 else 0) + evCount p tr := by
  by_cases h : p a = true <;>
    simp [evCount, List.filter_cons, h, Nat.add_comm]

theorem evCount_append (p : Ev → Bool) (a b : List Ev) :
    evCount p (a ++ b) = evCount p a + evCount p b := by
  simp [evCount, List.filter_append]

theorem evCount_eq_zero (p : Ev → Bool) (tr : List Ev)
    (h : ∀ e ∈ tr, p e = false) : evCount p tr = 0 := by
  induction tr with
  | nil => rfl
  | cons a t ih =>
    have ha := h a (by simp)
    rw [evCount_cons, ha]
    simp only [Bool.false_eq_true, if_false, Nat.zero_add]
    exact ih fun e he => h e (by simp [he])

theorem mapOkIdxs_append (a b : List Ev) :
    mapOkIdxs (a ++ b) = mapOkIdxs a ++ mapOkIdxs b := by
  simp [mapOkIdxs, List.filterMap_append]

theorem unmapIdxs_append (a b : List Ev) :
    unmapIdxs (a ++ b) = unmapIdxs a ++ unmapIdxs b := by
  simp [unmapIdxs, List.filterMap_append]

/-- Every event emitted by the buffer-setup loop is a querybuf ioctl, a qbuf
ioctl, or a map outcome. -/
theorem setupBufs_mem (q m en : Nat → Bool) :
    ∀ n i e, e ∈ (setupBufs q m en i n).2.1 →
      e = Ev.ioc IoK.querybuf ∨ e = Ev.ioc IoK.qbuf ∨
      (∃ j, e = Ev.mapOk j) ∨ (∃ j, e = Ev.mapFail j) := by
  intro n
  induction n with
  | zero => intro i e he; simp [setupBufs] at he
  | succ k ih =>
    intro i e he
    rw [setupBufs] at he
    by_cases h1 : q i = false
    · simp [h1] at he; subst he; left; rfl
    · by_cases h2 : m i = false
      · simp [h1, h2] at he
        rcases he with he | he
        · subst he; left; rfl
        · subst he; right; right; right; exact ⟨i, rfl⟩
      · by_cases h3 : en i = false
        · simp [h1, h2, h3] at he
          rcases he with he | he | he
          · subst he; left; rfl
          · subst he; right; right; left; exact ⟨i, rfl⟩
          · subst he; right; left; rfl
        · simp [h1, h2, h3] at he
          rcases he with he | he | he | he
          · subst he; left; rfl
          · subst he; right; right; left; exact ⟨i, rfl⟩
          · subst he; right; left; rfl
          · exact ih (i + 1) e he

/-- Every event emitted by the stream-handler teardown unmap loop is an
unmap. -/
theorem unmapEvents_mem :
    ∀ (sl : List Slot) (i : Nat) (e : Ev), e ∈ unmapEvents i sl → ∃ j, e = Ev.unmap j := by
  intro sl
  induction sl with
  | nil => intro i e he; simp [unmapEvents] at he
  | cons s rest ih =>
    intro i e he
    rw [unmapEvents] at he
    by_cases h : s = Slot.unset
    · simp [h] at he; exact ih (i + 1) e he
    · simp [h] at he
      rcases he with he | he
      · exact ⟨i, he⟩
      · exact ih (i + 1) e he

/-- Every event emitted by release_buffers is an unmap. -/
theorem detUnmapEvents_mem :
    ∀ (sl : List Slot) (i : Nat) (e : Ev), e ∈ detUnmapEvents i sl → ∃ j, e = Ev.unmap j := by
  intro sl
  induction sl with
  | nil => intro i e he; simp [detUnmapEvents] at he
  | cons s rest ih =>
    intro i e he
    rw [detUnmapEvents] at he
    by_cases h : s = Slot.mapped
    · simp [h] at he
      rcases he with he | he
      · exact ⟨i, he⟩
      · exact ih (i + 1) e he
    · simp [h] at he; exact ih (i + 1) e he

/-- Every event emitted by the streaming loop is a dqbuf ioctl, a qbuf ioctl,
or an encode outcome. -/
theorem runLoop_mem :
    ∀ (st : List StreamStep) (e : Ev), e ∈ (runLoop st).1 →
      e = Ev.ioc IoK.dqbuf ∨ e = Ev.ioc IoK.qbuf ∨ ∃ b, e = Ev.encode b := by
  intro st
  induction st with
  | nil => intro e he; simp [runLoop] at he
  | cons s rest ih =>
    intro e he
    cases s with
    | dqFail eintr =>
      rw [runLoop] at he
      simp at he; subst he; left; rfl
    | notDone =>
      rw [runLoop] at he
      simp at he
      rcases he with he | he | he
      · subst he; left; rfl
      · subst he; right; left; rfl
      · exact ih e he
    | frame encOk sB sP rq =>
      rw [runLoop] at he
      by_cases h1 : encOk = false
      · simp [h1] at he
        rcases he with he | he | he
        · subst he; left; rfl
        · subst he; right; right; exact ⟨false, rfl⟩
        · subst he; right; left; rfl
      · by_cases h2 : sB = false
        · simp [h1, h2] at he
          rcases he with he | he | he
          · subst he; left; rfl
          · subst he; right; right; exact ⟨true, rfl⟩
          · subst he; right; left; rfl
        · by_cases h3 : sP = false
          · simp [h1, h2, h3] at he
            rcases he with he | he | he
            · subst he; left; rfl
            · subst he; right; right; exact ⟨true, rfl⟩
            · subst he; right; left; rfl
          · by_cases h4 : rq = false
            · simp [h1, h2, h3, h4] at he
              rcases he with he | he | he
              · subst he; left; rfl
              · subst he; right; right; exact ⟨true, rfl⟩
              · subst he; right; left; rfl
            · simp [h1, h2, h3, h4] at he
              rcases he with he | he | he | he
              · subst he; left; rfl
              · subst he; right; right; exact ⟨true, rfl⟩
              · subst he; right; left; rfl
              · exact ih e he

/-- Every event emitted by the detection loop is a dqbuf or qbuf ioctl. -/
theorem detLoop_mem :
    ∀ (st : List DetStep) (e : Ev), e ∈ detLoop st →
      e = Ev.ioc IoK.dqbuf ∨ e = Ev.ioc IoK.qbuf := by
  intro st
  induction st with
  | nil => intro e he; simp [detLoop] at he
  | cons s rest ih =>
    intro e he
    cases s with
    | stopFlag => rw [detLoop] at he; simp at he
    | dqEintr =>
      rw [detLoop] at he
      simp at he
      rcases he with he | he
      · subst he; left; rfl
      · exact ih e he
    | dqFailStopped => rw [detLoop] at he; simp at he; subst he; left; rfl
    | dqFail => rw [detLoop] at he; simp at he; subst he; left; rfl
    | frame rq =>
      rw [detLoop] at he
      by_cases h : rq = false
      · simp [h] at he
        rcases he with he | he
        · subst he; left; rfl
        · subst he; right; rfl
      · simp [h] at he
        rcases he with he | he | he
        · subst he; left; rfl
        · subst he; right; rfl
        · exact ih e he

theorem relCount_setup (q m en : Nat → Bool) (i n : Nat) :
    evCount isRel (setupBufs q m en i n).2.1 = 0 := by
  refine evCount_eq_zero _ _ fun e he => ?_
  rcases setupBufs_mem q m en n i e he with h | h | ⟨j, h⟩ | ⟨j, h⟩ <;> subst h <;> rfl

theorem relCount_unmap (sl : List Slot) (i : Nat) :
    evCount isRel (unmapEvents i sl) = 0 := by
  refine evCount_eq_zero _ _ fun e he => ?_
  rcases unmapEvents_mem sl i e he with ⟨j, h⟩
  subst h; rfl

theorem relCount_runLoop (st : List StreamStep) :
    evCount isRel (runLoop st).1 = 0 := by
  refine evCount_eq_zero _ _ fun e he => ?_
  rcases runLoop_mem st e he with h | h | ⟨b, h⟩ <;> subst h <;> rfl

theorem acqCount_setup (q m en : Nat → Bool) (i n : Nat) :
    evCount isAcq (setupBufs q m en i n).2.1 = 0 := by
  refine evCount_eq_zero _ _ fun e he => ?_
  rcases setupBufs_mem q m en n i e he with h | h | ⟨j, h⟩ | ⟨j, h⟩ <;> subst h <;> rfl

theorem acqCount_detUnmap (sl : List Slot) (i : Nat) :
    evCount isAcq (detUnmapEvents i sl) = 0 := by
  refine evCount_eq_zero _ _ fun e he => ?_
  rcases detUnmapEvents_mem sl i e he with ⟨j, h⟩
  subst h; rfl

theorem acqCount_detLoop (st : List DetStep) :
    evCount isAcq (detLoop st) = 0 := by
  refine evCount_eq_zero _ _ fun e he => ?_
  rcases detLoop_mem st e he with h | h <;> subst h <;> rfl

theorem dqCount_setup (q m en : Nat → Bool) (i n : Nat) :
    evCount isDq (setupBufs q m en i n).2.1 = 0 := by
  refine evCount_eq_zero _ _ fun e he => ?_
  rcases setupBufs_mem q m en n i e he with h | h | ⟨j, h⟩ | ⟨j, h⟩ <;> subst h <;> rfl

theorem dqCount_unmap (sl : List Slot) (i : Nat) :
    evCount isDq (unmapEvents i sl) = 0 := by
  refine evCount_eq_zero _ _ fun e he => ?_
  rcases unmapEvents_mem sl i e he with ⟨j, h⟩
  subst h; rfl

theorem mapOkIdxs_eq_nil (tr : List Ev) (h : ∀ e ∈ tr, ∀ j, e ≠ Ev.mapOk j) :
    mapOkIdxs tr = [] := by
  rw [mapOkIdxs, List.filterMap_eq_nil_iff]
  intro e he
  cases e with
  | mapOk j => exact absurd rfl (h _ he j)
  | acqOk => rfl
  | acqFail => rfl
  | rel => rfl
  | ioc k => rfl
  | respErr c msg => rfl
  | mapFail j => rfl
  | unmap j => rfl
  | encode b => rfl

theorem unmapIdxs_eq_nil (tr : List Ev) (h : ∀ e ∈ tr, ∀ j, e ≠ Ev.unmap j) :
    unmapIdxs tr = [] := by
  rw [unmapIdxs, List.filterMap_eq_nil_iff]
  intro e he
  cases e with
  | unmap j => exact absurd rfl (h _ he j)
  | acqOk => rfl
  | acqFail => rfl
  | rel => rfl
  | ioc k => rfl
  | respErr c msg => rfl
  | mapOk j => rfl
  | mapFail j => rfl
  | encode b => rfl

theorem unmapIdxs_setup (q m en : Nat → Bool) (i n : Nat) :
    unmapIdxs (setupBufs q m en i n).2.1 = [] := by
  refine unmapIdxs_eq_nil _ fun e he j => ?_
  rcases setupBufs_mem q m en n i e he with h | h | ⟨j2, h⟩ | ⟨j2, h⟩ <;> subst h <;> simp

theorem mapOkIdxs_unmapEvents (sl : List Slot) (i : Nat) :
    mapOkIdxs (unmapEvents i sl) = [] := by
  refine mapOkIdxs_eq_nil _ fun e he j => ?_
  rcases unmapEvents_mem sl i e he with ⟨j2, h⟩
  subst h; simp

theorem mapOkIdxs_detUnmapEvents (sl : List Slot) (i : Nat) :
    mapOkIdxs (detUnmapEvents i sl) = [] := by
  refine mapOkIdxs_eq_nil _ fun e he j => ?_
  rcases detUnmapEvents_mem sl i e he with ⟨j2, h⟩
  subst h; simp

theorem mapOkIdxs_runLoop (st : List StreamStep) :
    mapOkIdxs (runLoop st).1 = [] := by
  refine mapOkIdxs_eq_nil _ fun e he j => ?_
  rcases runLoop_mem st e he with h | h | ⟨b, h⟩ <;> subst h <;> simp

theorem unmapIdxs_runLoop (st : List StreamStep) :
    unmapIdxs (runLoop st).1 = [] := by
  refine unmapIdxs_eq_nil _ fun e he j => ?_
  rcases runLoop_mem st e he with h | h | ⟨b, h⟩ <;> subst h <;> simp

theorem mapOkIdxs_detLoop (st : List DetStep) :
    mapOkIdxs (detLoop st) = [] := by
  refine mapOkIdxs_eq_nil _ fun e he j => ?_
  rcases detLoop_mem st e he with h | h <;> subst h <;> simp

theorem unmapIdxs_detLoop (st : List DetStep) :
    unmapIdxs (detLoop st) = [] := by
  refine unmapIdxs_eq_nil _ fun e he j => ?_
  rcases detLoop_mem st e he with h | h <;> subst h <;> simp

theorem unmapEvents_replicate_unset (k i : Nat) :
    unmapEvents i (List.replicate k Slot.unset) = [] := by
  induction k generalizing i with
  | zero => rfl
  | succ k2 ih => rw [List.replicate_succ, unmapEvents]; simp [ih]

theorem detUnmapEvents_replicate_unset (k i : Nat) :
    detUnmapEvents i (List.replicate k Slot.unset) = [] := by
  induction k generalizing i with
  | zero => rfl
  | succ k2 ih => rw [List.replicate_succ, detUnmapEvents]; simp [ih]

/-- The indices unmapped by the stream-handler teardown over the slot array
the setup loop produced are exactly, and in the same order, the indices the
setup loop successfully mapped. -/
theorem unmap_eq_mapOk_setup (q m en : Nat → Bool) :
    ∀ n i, unmapIdxs (unmapEvents i (setupBufs q m en i n).1) =
      mapOkIdxs (setupBufs q m en i n).2.1 := by
  intro n
  induction n with
  | zero => intro i; rfl
  | succ k ih =>
    intro i
    cases hq : q i with
    | false =>
      rw [setupBufs]
      simp [hq, unmapEvents_replicate_unset, mapOkIdxs, unmapIdxs]
    | true =>
      cases hm : m i with
      | false =>
        rw [setupBufs]
        simp [hq, hm, unmapEvents_replicate_unset, mapOkIdxs, unmapIdxs]
      | true =>
        cases hen : en i with
        | false =>
          rw [setupBufs]
          simp [hq, hm, hen, unmapEvents, unmapEvents_replicate_unset,
            mapOkIdxs, unmapIdxs]
        | true =>
          rw [setupBufs]
          have H := ih (i + 1)
          simp only [unmapIdxs, mapOkIdxs] at H ⊢
          simp [hq, hm, hen, unmapEvents, List.filterMap_cons, H]

/-- The same statement for the detection task teardown (release_buffers). -/
theorem detUnmap_eq_mapOk_setup (q m en : Nat → Bool) :
    ∀ n i, unmapIdxs (detUnmapEvents i (setupBufs q m en i n).1) =
      mapOkIdxs (setupBufs q m en i n).2.1 := by
  intro n
  induction n with
  | zero => intro i; rfl
  | succ k ih =>
    intro i
    cases hq : q i with
    | false =>
      rw [setupBufs]
      simp [hq, detUnmapEvents_replicate_unset, mapOkIdxs, unmapIdxs]
    | true =>
      cases hm : m i with
      | false =>
        rw [setupBufs]
        simp [hq, hm, detUnmapEvents_replicate_unset, mapOkIdxs, unmapIdxs]
      | true =>
        cases hen : en i with
        | false =>
          rw [setupBufs]
          simp [hq, hm, hen, detUnmapEvents, detUnmapEvents_replicate_unset,
            mapOkIdxs, unmapIdxs]
        | true =>
          rw [setupBufs]
          have H := ih (i + 1)
          simp only [unmapIdxs, mapOkIdxs] at H ⊢
          simp [hq, hm, hen, detUnmapEvents, List.filterMap_cons, H]

theorem mapOkIdxs_nil : mapOkIdxs [] = [] := rfl

theorem unmapIdxs_nil : unmapIdxs [] = [] := rfl

theorem mapOkIdxs_cons_acqOk (tr : List Ev) : mapOkIdxs (Ev.acqOk :: tr) = mapOkIdxs tr := rfl

theorem mapOkIdxs_cons_acqFail (tr : List Ev) : mapOkIdxs (Ev.acqFail :: tr) = mapOkIdxs tr := rfl

theorem mapOkIdxs_cons_rel (tr : List Ev) : mapOkIdxs (Ev.rel :: tr) = mapOkIdxs tr := rfl

theorem mapOkIdxs_cons_ioc (k : IoK) (tr : List Ev) : mapOkIdxs (Ev.ioc k :: tr) = mapOkIdxs tr := rfl

theorem mapOkIdxs_cons_respErr (c : Nat) (s : String) (tr : List Ev) :
    mapOkIdxs (Ev.respErr c s :: tr) = mapOkIdxs tr := rfl

theorem unmapIdxs_cons_acqOk (tr : List Ev) : unmapIdxs (Ev.acqOk :: tr) = unmapIdxs tr := rfl

theorem unmapIdxs_cons_acqFail (tr : List Ev) : unmapIdxs (Ev.acqFail :: tr) = unmapIdxs tr := rfl

theorem unmapIdxs_cons_rel (tr : List Ev) : unmapIdxs (Ev.rel :: tr) = unmapIdxs tr := rfl

theorem unmapIdxs_cons_ioc (k : IoK) (tr : List Ev) : unmapIdxs (Ev.ioc k :: tr) = unmapIdxs tr := rfl

theorem unmapIdxs_cons_respErr (c : Nat) (s : String) (tr : List Ev) :
    unmapIdxs (Ev.respErr c s :: tr) = unmapIdxs tr := rfl

/-- release_buffers balances init_v4l2_buffers for any outcome of the
configure preamble. -/
theorem det_map_unmap (env : DetEnv) (pre : List Ev)
    (hu : unmapIdxs pre = []) (hm : mapOkIdxs pre = []) :
    unmapIdxs (detAfterCfg env pre) = mapOkIdxs (detAfterCfg env pre) := by
  rw [detAfterCfg]
  cases hrb : env.reqbufs with
  | none =>
    simp [unmapIdxs_append, mapOkIdxs_append, hu, hm, unmapIdxs_cons_ioc,
      mapOkIdxs_cons_ioc, unmapIdxs_nil, mapOkIdxs_nil]
  | some n =>
    by_cases hn : n = 0
    · simp [hn, unmapIdxs_append, mapOkIdxs_append, hu, hm, unmapIdxs_cons_ioc,
        mapOkIdxs_cons_ioc, unmapIdxs_nil, mapOkIdxs_nil]
    · by_cases hsu : (setupBufs env.qryOk env.mmOk env.enqOk 0 n).2.2 = false
      · simp [hn, hsu, unmapIdxs_append, mapOkIdxs_append, hu, hm,
          unmapIdxs_cons_ioc, mapOkIdxs_cons_ioc, unmapIdxs_setup,
          mapOkIdxs_detUnmapEvents, detUnmap_eq_mapOk_setup]
      · cases hso : env.streamonOk with
        | false =>
          simp [hn, hsu, unmapIdxs_append, mapOkIdxs_append, hu, hm,
            unmapIdxs_cons_ioc, mapOkIdxs_cons_ioc, unmapIdxs_setup,
            mapOkIdxs_detUnmapEvents, detUnmap_eq_mapOk_setup,
            unmapIdxs_nil, mapOkIdxs_nil]
        | true =>
          simp [hn, hsu, unmapIdxs_append, mapOkIdxs_append, hu, hm,
            unmapIdxs_cons_ioc, mapOkIdxs_cons_ioc, unmapIdxs_setup,
            mapOkIdxs_detUnmapEvents, detUnmap_eq_mapOk_setup,
            unmapIdxs_detLoop, mapOkIdxs_detLoop, unmapIdxs_nil, mapOkIdxs_nil]

/-- The detection task never emits a successful lock acquisition after its
configure preamble. -/
theorem acqCount_detAfterCfg (env : DetEnv) (pre : List Ev)
    (h : evCount isAcq pre = 0) :
    evCount isAcq (detAfterCfg env pre) = 0 := by
  rw [detAfterCfg]
  cases hrb : env.reqbufs with
  | none => simp [evCount_append, evCount_cons, evCount_nil, h, isAcq]
  | some n =>
    by_cases hn : n = 0
    · simp [hn, evCount_append, evCount_cons, evCount_nil, h, isAcq]
    · by_cases hsu : (setupBufs env.qryOk env.mmOk env.enqOk 0 n).2.2 = false
      · simp [hn, hsu, evCount_append, evCount_cons, evCount_nil, h, isAcq,
          acqCount_setup, acqCount_detUnmap]
      · cases hso : env.streamonOk with
        | false =>
          simp [hn, hsu, evCount_append, evCount_cons, evCount_nil, h, isAcq,
            acqCount_setup, acqCount_detUnmap]
        | true =>
          simp [hn, hsu, evCount_append, evCount_cons, evCount_nil, h, isAcq,
            acqCount_setup, acqCount_detUnmap, acqCount_detLoop]

/-- A fully successful stream-handler environment whose loop processes one
frame and then sees a dequeue failure. -/
def seHappy : StreamEnv :=
  { lockOk := true, reqbufs := some 3, callocOk := true,
    qryOk := fun _ => true, mmOk := fun _ => true, enqOk := fun _ => true,
    streamonOk := true,
    steps := [StreamStep.frame true true true true, StreamStep.dqFail false] }

/-- seHappy with the lock acquisition timing out. -/
def seLocked : StreamEnv :=
  { seHappy with lockOk := false }

/-- A fully successful capture-handler environment. -/
def ceHappy : CaptureEnv :=
  { lockOk := true, reqbufs := some 1, qryOk := true, mmOk := true,
    enqOk := true, streamonOk := true, dqOk := true, encOk := true,
    sendOk := true }

/-- ceHappy with the lock acquisition timing out. -/
def ceLocked : CaptureEnv :=
  { ceHappy with lockOk := false }

/-- A successful detection-task environment: RGB565 already negotiated, two
buffers, one processed frame, then the stop flag. -/
def deHappy : DetEnv :=
  { detectorOk := true, getFmtRes := some ⟨640, 480, PixFmt.rgb565⟩,
    setFmtOk := true, reqbufs := some 2,
    qryOk := fun _ => true, mmOk := fun _ => true, enqOk := fun _ => true,
    streamonOk := true, steps := [DetStep.frame true, DetStep.stopFlag] }

/-- C1: for every execution of the stream handler or the single-shot capture
handler in which the camera lock is successfully acquired, the trace contains
exactly one lock-release event before the handler returns, on every exit
path (every environment, i.e. every combination of ioctl, allocation, encode
and chunk-send outcomes). -/
theorem lock_release_balanced (se : StreamEnv) (ce : CaptureEnv)
    (hs : se.lockOk = true) (hc : ce.lockOk = true) :
    evCount isRel (stream_handler se).2 = 1 ∧
    evCount isRel (capture_handler ce).2 = 1 := by
  constructor
  · rw [stream_handler]
    cases hrb : se.reqbufs with
    | none => simp [hs]; decide
    | some n =>
      rcases Nat.eq_zero_or_pos n with hn | hn
      · subst hn; simp [hs]; decide
      · have hn2 : ¬n = 0 := Nat.pos_iff_ne_zero.mp hn
        cases hco : se.callocOk with
        | false => simp [hs, hn2]; decide
        | true =>
          by_cases hsu : (setupBufs se.qryOk se.mmOk se.enqOk 0 n).2.2 = false
          · simp [hs, hn2, hsu, evCount_cons, evCount_append, evCount_nil,
              relCount_setup, relCount_unmap, isRel]
          · cases hso : se.streamonOk with
            | false =>
              simp [hs, hn2, hsu, evCount_cons, evCount_append, evCount_nil,
                relCount_setup, relCount_unmap, isRel]
            | true =>
              simp [hs, hn2, hsu, evCount_cons, evCount_append, evCount_nil,
                relCount_setup, relCount_unmap, relCount_runLoop, isRel]
  · rw [capture_handler]
    cases hrb : ce.reqbufs with
    | none => simp [hc]; decide
    | some n =>
      rcases Nat.eq_zero_or_pos n with hn | hn
      · subst hn; simp [hc]; decide
      · have hn2 : ¬n = 0 := Nat.pos_iff_ne_zero.mp hn
        cases h1 : ce.qryOk <;> cases h2 : ce.mmOk <;> cases h3 : ce.enqOk <;>
          cases h4 : ce.streamonOk <;> cases h5 : ce.dqOk <;> cases h6 : ce.encOk <;>
          cases h7 : ce.sendOk <;>
          (simp [hc, hn2]; decide)

/-- C1 witness at fully concrete environments. -/
theorem lock_release_balanced_w :
    evCount isRel (stream_handler seHappy).2 = 1 ∧
    evCount isRel (capture_handler ceHappy).2 = 1 :=
  lock_release_balanced seHappy ceHappy rfl rfl

/-- C8: when the camera lock cannot be acquired within the fixed 10000 ms
timeout, both handlers respond 500 "Camera busy", issue no device ioctl, and
return ESP_FAIL with no internal retry (the whole trace is the single failed
acquisition plus the error response). -/
theorem gate_timeout_busy (se : StreamEnv) (ce : CaptureEnv)
    (hs : se.lockOk = false) (hc : ce.lockOk = false) :
    stream_handler se = (EspErr.fail, [Ev.acqFail, Ev.respErr 500 "Camera busy"]) ∧
    capture_handler ce = (EspErr.fail, [Ev.acqFail, Ev.respErr 500 "Camera busy"]) ∧
    evCount isIoc (stream_handler se).2 = 0 ∧
    evCount isIoc (capture_handler ce).2 = 0 ∧
    cameraLockTimeoutMs = 10000 := by
  have h1 : stream_handler se = (EspErr.fail, [Ev.acqFail, Ev.respErr 500 "Camera busy"]) := by
    rw [stream_handler]; simp [hs]
  have h2 : capture_handler ce = (EspErr.fail, [Ev.acqFail, Ev.respErr 500 "Camera busy"]) := by
    rw [capture_handler]; simp [hc]
  refine ⟨h1, h2, ?_, ?_, rfl⟩
  · rw [h1]; rfl
  · rw [h2]; rfl

/-- C8 witness at concrete denied-lock environments. -/
theorem gate_timeout_busy_w :
    stream_handler seLocked = (EspErr.fail, [Ev.acqFail, Ev.respErr 500 "Camera busy"]) ∧
    capture_handler ceLocked = (EspErr.fail, [Ev.acqFail, Ev.respErr 500 "Camera busy"]) ∧
    cameraLockTimeoutMs = 10000 :=
  ⟨(gate_timeout_busy seLocked ceLocked rfl rfl).1,
   (gate_timeout_busy seLocked ceLocked rfl rfl).2.1, rfl⟩

/-- C9: calling camera_lock_release when the mutex is not held leaves the
lock state unchanged: the gate stays free and the mutual-exclusion state is
not corrupted (xSemaphoreGive on a mutex held by nobody fails without
touching it). -/
theorem release_not_held_noop (st : LockState) (caller : Nat)
    (h : st.holder = none) :
    camera_lock_release st caller = st := by
  simp [camera_lock_release, semGive, h]

/-- C9 witness: releasing a created, free lock is a no-op. -/
theorem release_not_held_noop_w :
    camera_lock_release ⟨true, none⟩ 5 = ⟨true, none⟩ :=
  release_not_held_noop ⟨true, none⟩ 5 rfl

/-- A server-start environment in which every external call succeeds. -/
def srvHappy : ServerEnv :=
  { lockCreateOk := true,
    cfg := { getFmtRes := some ⟨640, 480, PixFmt.rgb565⟩, setFmtRes := fun g => some g },
    desiredW := 640, desiredH := 480,
    enc := { newEngineOk := true, allocRes := some 4096 },
    httpdOk := true }

/-- A face_detect_start environment with a detection task already running. -/
def deRun : DetStartEnv :=
  { running := true, taskCreateOk := true }

/-- C10: both public start entry points reject a negative camera file
descriptor with ESP_ERR_INVALID_ARG and perform no action (no HTTP server
start, no device ioctl, no detector allocation, no task creation); and with a
valid descriptor face_detect_start returns ESP_ERR_INVALID_STATE, again with
no action, when a detection task is already running. -/
theorem start_invalid_fd (fd : Int) (se : ServerEnv) (de : DetStartEnv)
    (hfd : fd < 0) :
    camera_server_start fd se = (EspErr.invalidArg, []) ∧
    face_detect_start fd de = (EspErr.invalidArg, []) ∧
    (∀ fd2 : Int, 0 ≤ fd2 → de.running = true →
      face_detect_start fd2 de = (EspErr.invalidState, [])) := by
  refine ⟨?_, ?_, ?_⟩
  · rw [camera_server_start]; simp [hfd]
  · rw [face_detect_start]; simp [hfd]
  · intro fd2 h2 hr
    have hnl : ¬fd2 < 0 := not_lt.mpr h2
    rw [face_detect_start]
    simp [hnl, hr]

/-- C10 witness at fd = -1 and a running detection task. -/
theorem start_invalid_fd_w :
    camera_server_start (-1) srvHappy = (EspErr.invalidArg, []) ∧
    face_detect_start (-1) deRun = (EspErr.invalidArg, []) ∧
    face_detect_start 0 deRun = (EspErr.invalidState, []) :=
  ⟨(start_invalid_fd (-1) srvHappy deRun (by decide)).1,
   (start_invalid_fd (-1) srvHappy deRun (by decide)).2.1,
   (start_invalid_fd (-1) srvHappy deRun (by decide)).2.2 0 (by decide) rfl⟩

/-- C2 is false on the code: a fully successful run of the background
face-detection task issues capture-device ioctls (format get, request
buffers, query, queue, stream on, dequeue, requeue, stream off) while its
trace contains no successful acquisition of the camera lock — the detection
task has no access to the lock, which is file-static in camera_server.c. -/
theorem gate_all_paths_cex :
    1 ≤ evCount isIoc (detection_task_run deHappy) ∧
    evCount isAcq (detection_task_run deHappy) = 0 := by
  decide

/-- C2 amended: the two HTTP handlers do acquire the Exclusive Access Gate
before touching the capture device — their first trace event is the
successful acquisition, and when acquisition fails they issue no ioctl at
all — but the background face-detection task issues its capture-device
ioctls without ever acquiring the gate: no run of it contains a successful
lock acquisition. -/
theorem gate_discipline_amended (se : StreamEnv) (ce : CaptureEnv) (de : DetEnv) :
    (se.lockOk = false → evCount isIoc (stream_handler se).2 = 0) ∧
    (ce.lockOk = false → evCount isIoc (capture_handler ce).2 = 0) ∧
    (se.lockOk = true → (stream_handler se).2.head? = some Ev.acqOk) ∧
    (ce.lockOk = true → (capture_handler ce).2.head? = some Ev.acqOk) ∧
    evCount isAcq (detection_task_run de) = 0 := by
  refine ⟨?_, ?_, ?_, ?_, ?_⟩
  · intro h; rw [stream_handler]; simp [h]; decide
  · intro h; rw [capture_handler]; simp [h]; decide
  · intro h
    rw [stream_handler]
    cases hrb : se.reqbufs with
    | none => simp [h]
    | some n =>
      rcases Nat.eq_zero_or_pos n with hn | hn
      · subst hn; simp [h]
      · have hn2 : ¬n = 0 := Nat.pos_iff_ne_zero.mp hn
        cases hco : se.callocOk with
        | false => simp [h, hn2]
        | true =>
          by_cases hsu : (setupBufs se.qryOk se.mmOk se.enqOk 0 n).2.2 = false
          · simp [h, hn2, hsu]
          · cases hso : se.streamonOk <;> simp [h, hn2, hsu]
  · intro h
    rw [capture_handler]
    cases hrb : ce.reqbufs with
    | none => simp [h]
    | some n =>
      rcases Nat.eq_zero_or_pos n with hn | hn
      · subst hn; simp [h]
      · have hn2 : ¬n = 0 := Nat.pos_iff_ne_zero.mp hn
        cases h1 : ce.qryOk <;> cases h2 : ce.mmOk <;> cases h3 : ce.enqOk <;>
          cases h4 : ce.streamonOk <;> cases h5 : ce.dqOk <;> cases h6 : ce.encOk <;>
          cases h7 : ce.sendOk <;> simp [h, hn2]
  · rw [detection_task_run]
    cases hdet : de.detectorOk with
    | false => simp; decide
    | true =>
      cases hg : de.getFmtRes with
      | none => simp; decide
      | some f =>
        by_cases hp : f.pixfmt = PixFmt.rgb565
        · simp only [hp, if_pos, if_true]
          simp
          exact acqCount_detAfterCfg de [Ev.ioc IoK.getFmt] (by decide)
        · cases hsf : de.setFmtOk with
          | false => simp [hp]; decide
          | true =>
            simp [hp]
            exact acqCount_detAfterCfg de [Ev.ioc IoK.getFmt, Ev.ioc IoK.setFmt] (by decide)

/-- C2 amended witness: each hypothesis discharged at a concrete
environment. -/
theorem gate_discipline_amended_w :
    evCount isIoc (stream_handler seLocked).2 = 0 ∧
    evCount isIoc (capture_handler ceLocked).2 = 0 ∧
    (stream_handler seHappy).2.head? = some Ev.acqOk ∧
    (capture_handler ceHappy).2.head? = some Ev.acqOk :=
  ⟨(gate_discipline_amended seLocked ceLocked deHappy).1 rfl,
   (gate_discipline_amended seLocked ceLocked deHappy).2.1 rfl,
   (gate_discipline_amended seHappy ceHappy deHappy).2.2.1 rfl,
   (gate_discipline_amended seHappy ceHappy deHappy).2.2.2.1 rfl⟩

/-- C3: in every run of the stream handler, the capture handler and the
detection task, the sequence of buffer indices unmapped during teardown
equals the sequence of indices successfully mapped during setup — a buffer
whose mmap failed is never unmapped, every successfully mapped buffer is
unmapped exactly once — wherever the session was interrupted. -/
theorem map_unmap_balance (se : StreamEnv) (ce : CaptureEnv) (de : DetEnv) :
    unmapIdxs (stream_handler se).2 = mapOkIdxs (stream_handler se).2 ∧
    unmapIdxs (capture_handler ce).2 = mapOkIdxs (capture_handler ce).2 ∧
    unmapIdxs (detection_task_run de) = mapOkIdxs (detection_task_run de) := by
  refine ⟨?_, ?_, ?_⟩
  · rw [stream_handler]
    cases hl : se.lockOk with
    | false => simp; decide
    | true =>
      cases hrb : se.reqbufs with
      | none => simp; decide
      | some n =>
        rcases Nat.eq_zero_or_pos n with hn | hn
        · subst hn; simp; decide
        · have hn2 : ¬n = 0 := Nat.pos_iff_ne_zero.mp hn
          cases hco : se.callocOk with
          | false => simp [hn2]; decide
          | true =>
            by_cases hsu : (setupBufs se.qryOk se.mmOk se.enqOk 0 n).2.2 = false
            · simp [hn2, hsu, unmapIdxs_cons_acqOk, unmapIdxs_cons_ioc,
                mapOkIdxs_cons_acqOk, mapOkIdxs_cons_ioc, unmapIdxs_append,
                mapOkIdxs_append, unmapIdxs_setup, mapOkIdxs_unmapEvents,
                unmap_eq_mapOk_setup, unmapIdxs_nil, mapOkIdxs_nil,
                unmapIdxs_cons_rel, mapOkIdxs_cons_rel]
            · cases hso : se.streamonOk with
              | false =>
                simp [hn2, hsu, unmapIdxs_cons_acqOk, unmapIdxs_cons_ioc,
                  mapOkIdxs_cons_acqOk, mapOkIdxs_cons_ioc, unmapIdxs_append,
                  mapOkIdxs_append, unmapIdxs_setup, mapOkIdxs_unmapEvents,
                  unmap_eq_mapOk_setup, unmapIdxs_nil, mapOkIdxs_nil,
                  unmapIdxs_cons_rel, mapOkIdxs_cons_rel]
              | true =>
                simp [hn2, hsu, unmapIdxs_cons_acqOk, unmapIdxs_cons_ioc,
                  mapOkIdxs_cons_acqOk, mapOkIdxs_cons_ioc, unmapIdxs_append,
                  mapOkIdxs_append, unmapIdxs_setup, mapOkIdxs_unmapEvents,
                  unmap_eq_mapOk_setup, unmapIdxs_nil, mapOkIdxs_nil,
                  unmapIdxs_cons_rel, mapOkIdxs_cons_rel, unmapIdxs_runLoop,
                  mapOkIdxs_runLoop]
  · rw [capture_handler]
    cases hl : ce.lockOk with
    | false => simp; decide
    | true =>
      cases hrb : ce.reqbufs with
      | none => simp; decide
      | some n =>
        rcases Nat.eq_zero_or_pos n with hn | hn
        · subst hn; simp; decide
        · have hn2 : ¬n = 0 := Nat.pos_iff_ne_zero.mp hn
          cases h1 : ce.qryOk <;> cases h2 : ce.mmOk <;> cases h3 : ce.enqOk <;>
            cases h4 : ce.streamonOk <;> cases h5 : ce.dqOk <;> cases h6 : ce.encOk <;>
            cases h7 : ce.sendOk <;> (simp [hn2]; try decide)
  · rw [detection_task_run]
    cases hdet : de.detectorOk with
    | false => simp; rfl
    | true =>
      cases hg : de.getFmtRes with
      | none => simp; decide
      | some f =>
        by_cases hp : f.pixfmt = PixFmt.rgb565
        · simp only [hp, if_true]
          simp
          exact det_map_unmap de [Ev.ioc IoK.getFmt] rfl rfl
        · cases hsf : de.setFmtOk with
          | false => simp [hp]; decide
          | true =>
            simp [hp]
            exact det_map_unmap de [Ev.ioc IoK.getFmt, Ev.ioc IoK.setFmt] rfl rfl

/-- A stream environment whose loop script has an encode failure on the first
frame and a fully successful second frame behind it. -/
def seEncFail : StreamEnv :=
  { lockOk := true, reqbufs := some 3, callocOk := true,
    qryOk := fun _ => true, mmOk := fun _ => true, enqOk := fun _ => true,
    streamonOk := true,
    steps := [StreamStep.frame false true true true,
              StreamStep.frame true true true true] }

/-- C4 is false on the code: with a per-frame encoder error on the first
frame and a perfectly good second frame available, the stream handler
performs exactly one dequeue — the loop does not continue with the next
frame — and returns ESP_FAIL; the failing iteration still requeues the
buffer before breaking. -/
theorem encode_error_ends_stream_cex :
    (runLoop seEncFail.steps).1 =
      [Ev.ioc IoK.dqbuf, Ev.encode false, Ev.ioc IoK.qbuf] ∧
    evCount isDq (stream_handler seEncFail).2 = 1 ∧
    (stream_handler seEncFail).1 = EspErr.fail := by
  decide

/-- C4 amended: during continuous streaming a per-frame encoder error causes
that frame to be dropped and its buffer re-queued to the hardware, but it
ends the streaming loop — the session proceeds to teardown and the handler
returns ESP_FAIL — rather than continuing with the next frame. -/
theorem encode_error_amended (se : StreamEnv) (n : Nat) (sB sP rq : Bool)
    (rest : List StreamStep)
    (hsteps : se.steps = StreamStep.frame false sB sP rq :: rest)
    (hlock : se.lockOk = true) (hrb : se.reqbufs = some n) (hn : n ≠ 0)
    (hco : se.callocOk = true)
    (hsetup : (setupBufs se.qryOk se.mmOk se.enqOk 0 n).2.2 = true)
    (hon : se.streamonOk = true) :
    runLoop se.steps = ([Ev.ioc IoK.dqbuf, Ev.encode false, Ev.ioc IoK.qbuf], false) ∧
    (stream_handler se).1 = EspErr.fail ∧
    evCount isDq (stream_handler se).2 = 1 := by
  have hloop : runLoop se.steps =
      ([Ev.ioc IoK.dqbuf, Ev.encode false, Ev.ioc IoK.qbuf], false) := by
    rw [hsteps, runLoop]; simp
  refine ⟨hloop, ?_, ?_⟩
  · rw [stream_handler]
    simp [hlock, hrb, hn, hco, hsetup, hon, hloop]
  · rw [stream_handler]
    simp [hlock, hrb, hn, hco, hsetup, hon, hloop, evCount_cons, evCount_append,
      evCount_nil, dqCount_setup, dqCount_unmap, isDq]

/-- C4 amended witness at the concrete encode-failure environment. -/
theorem encode_error_amended_w :
    runLoop seEncFail.steps =
      ([Ev.ioc IoK.dqbuf, Ev.encode false, Ev.ioc IoK.qbuf], false) ∧
    (stream_handler seEncFail).1 = EspErr.fail ∧
    evCount isDq (stream_handler seEncFail).2 = 1 :=
  encode_error_amended seEncFail 3 true true true
    [StreamStep.frame true true true true] rfl rfl rfl (by decide) rfl (by decide) rfl

/-- The device reports 800x600 GREY and refuses every set-format request. -/
def cfgCex : CfgEnv :=
  { getFmtRes := some ⟨800, 600, PixFmt.grey⟩, setFmtRes := fun _ => none }

/-- C5 is false on the code: with the device reporting 800x600 GREY, a
desired resolution of 640x480, and every set-format call failing (both the
RGB565 and the YUV422P attempts are made and refused), the stored
StreamFormat is 640x480 GREY — the configured desired resolution overwrites
the width and height — and not the 800x600 GREY the device reported from the
query step. -/
theorem negotiate_retain_cex :
    cfgCex.getFmtRes = some ⟨800, 600, PixFmt.grey⟩ ∧
    cfgCex.setFmtRes ⟨640, 480, PixFmt.rgb565⟩ = none ∧
    cfgCex.setFmtRes ⟨640, 480, PixFmt.yuv422p⟩ = none ∧
    (configure_camera_device cfgCex 640 480).2 =
      [⟨640, 480, PixFmt.rgb565⟩, ⟨640, 480, PixFmt.yuv422p⟩] ∧
    (configure_camera_device cfgCex 640 480).1 = some ⟨640, 480, PixFmt.grey⟩ ∧
    some (⟨640, 480, PixFmt.grey⟩ : Fmt) ≠ some (⟨800, 600, PixFmt.grey⟩ : Fmt) := by
  decide

/-- C5 amended: format negotiation reads the current device format; when the
queried pixel format is not already RGB565 it tries RGB565 then YUV422P via
set-format calls, accepting the first that succeeds; when no set-format call
succeeds it retains the pixel format the device already reports, while the
stored width and height are the configured desired resolution whenever both
are positive (and the device-reported ones otherwise). -/
theorem negotiate_fallback_amended (env : CfgEnv) (dW dH : Nat) (f : Fmt)
    (hq : env.getFmtRes = some f) (hs : ∀ g, env.setFmtRes g = none) :
    (configure_camera_device env dW dH).1 =
      some { width := if 0 < dW ∧ 0 < dH then dW else f.width,
             height := if 0 < dW ∧ 0 < dH then dH else f.height,
             pixfmt := f.pixfmt } ∧
    (configure_camera_device env dW dH).2 =
      (if f.pixfmt = PixFmt.rgb565 then ([] : List Fmt)
       else
        [{ width := if 0 < dW ∧ 0 < dH then dW else f.width,
           height := if 0 < dW ∧ 0 < dH then dH else f.height,
           pixfmt := PixFmt.rgb565 },
         { width := if 0 < dW ∧ 0 < dH then dW else f.width,
           height := if 0 < dW ∧ 0 < dH then dH else f.height,
           pixfmt := PixFmt.yuv422p }]) := by
  obtain ⟨fw, fh, fp⟩ := f
  rw [configure_camera_device, hq]
  by_cases hd : 0 < dW ∧ 0 < dH
  · by_cases hp : fp = PixFmt.rgb565
    · subst hp; simp [hd]
    · simp [hd, hp, hs]
  · by_cases hp : fp = PixFmt.rgb565
    · subst hp; simp [hd]
    · simp [hd, hp, hs]

/-- C5 amended witness at the concrete refusing device. -/
theorem negotiate_fallback_amended_w :
    (configure_camera_device cfgCex 640 480).1 = some ⟨640, 480, PixFmt.grey⟩ ∧
    (configure_camera_device cfgCex 640 480).2 =
      [⟨640, 480, PixFmt.rgb565⟩, ⟨640, 480, PixFmt.yuv422p⟩] := by
  have H := negotiate_fallback_amended cfgCex 640 480 ⟨800, 600, PixFmt.grey⟩
    rfl (fun g => rfl)
  exact ⟨H.1, H.2⟩

/-- Both encoder allocations succeed. -/
def encHappy : EncEnv := { newEngineOk := true, allocRes := some 4096 }

/-- Engine creation succeeds but the output-buffer allocation fails. -/
def encNoMem : EncEnv := { newEngineOk := true, allocRes := none }

/-- C6: starting from the zero EncoderContext, configuration succeeds for
each of the four supported pixel formats (RGB565, RGB24, YUV422P, GREY)
whenever the engine creation and output-buffer allocation succeed; for any
other pixel format it fails with ESP_ERR_NOT_SUPPORTED, leaving the context
exactly as it was; and on any failure no partial context is left allocated:
the handle is released and the configured flag stays false. -/
theorem encoder_configure_spec (env : EncEnv) (w h : Nat) (p : PixFmt) :
    ((p = PixFmt.rgb565 ∨ p = PixFmt.rgb24 ∨ p = PixFmt.yuv422p ∨ p = PixFmt.grey) →
      env.newEngineOk = true → env.allocRes ≠ none →
      (jpeg_encoder_init env w h p jpegStateZero).1 = EspErr.ok ∧
      (jpeg_encoder_init env w h p jpegStateZero).2.configured = true ∧
      (jpeg_encoder_init env w h p jpegStateZero).2.handleAlloc = true) ∧
    (¬(p = PixFmt.rgb565 ∨ p = PixFmt.rgb24 ∨ p = PixFmt.yuv422p ∨ p = PixFmt.grey) →
      jpeg_encoder_init env w h p jpegStateZero = (EspErr.notSupported, jpegStateZero)) ∧
    ((jpeg_encoder_init env w h p jpegStateZero).1 ≠ EspErr.ok →
      (jpeg_encoder_init env w h p jpegStateZero).2.handleAlloc = false ∧
      (jpeg_encoder_init env w h p jpegStateZero).2.outBufAlloc = false ∧
      (jpeg_encoder_init env w h p jpegStateZero).2.configured = false) := by
  obtain ⟨ne, ar⟩ := env
  cases ne <;> cases ar <;> cases p <;>
    simp [jpeg_encoder_init, fmtParams, jpegStateZero]

/-- C6 witness: success at RGB565, not-supported at JPEG passthrough, and a
clean context after an allocation failure. -/
theorem encoder_configure_spec_w :
    (jpeg_encoder_init encHappy 640 480 PixFmt.rgb565 jpegStateZero).1 = EspErr.ok ∧
    jpeg_encoder_init encHappy 640 480 PixFmt.jpeg jpegStateZero =
      (EspErr.notSupported, jpegStateZero) ∧
    (jpeg_encoder_init encNoMem 640 480 PixFmt.rgb565 jpegStateZero).2.handleAlloc = false :=
  ⟨((encoder_configure_spec encHappy 640 480 PixFmt.rgb565).1 (Or.inl rfl) rfl (by decide)).1,
   (encoder_configure_spec encHappy 640 480 PixFmt.jpeg).2.1 (by decide),
   ((encoder_configure_spec encNoMem 640 480 PixFmt.rgb565).2.2 (by decide)).1⟩

/-- A stream environment whose first loop iteration is a dequeue failure with
errno EINTR, with a fully good frame scripted behind it. -/
def seEintr : StreamEnv :=
  { lockOk := true, reqbufs := some 3, callocOk := true,
    qryOk := fun _ => true, mmOk := fun _ => true, enqOk := fun _ => true,
    streamonOk := true,
    steps := [StreamStep.dqFail true, StreamStep.frame true true true true] }

/-- C7 is false on the code for the streaming handler: an EINTR dequeue
failure is not retried there — the loop ends at once (a single dequeue is
performed even though a good frame was available next) and the handler
proceeds to teardown returning ESP_FAIL. -/
theorem stream_eintr_cex :
    (runLoop seEintr.steps).1 = [Ev.ioc IoK.dqbuf] ∧
    (runLoop seEintr.steps).2 = false ∧
    evCount isDq (stream_handler seEintr).2 = 1 ∧
    (stream_handler seEintr).1 = EspErr.fail := by
  decide

/-- C7 amended: in the detection task's steady-state loop an EINTR dequeue
failure is retried in place (the loop simply continues with the rest of the
script) and any other dequeue failure ends the loop; in the HTTP streaming
loop any dequeue failure, EINTR included, ends the loop and proceeds to
teardown. -/
theorem dequeue_eintr_amended (e : Bool) (rest : List StreamStep)
    (drest : List DetStep) :
    runLoop (StreamStep.dqFail e :: rest) = ([Ev.ioc IoK.dqbuf], false) ∧
    detLoop (DetStep.dqEintr :: drest) = Ev.ioc IoK.dqbuf :: detLoop drest ∧
    detLoop (DetStep.dqFail :: drest) = [Ev.ioc IoK.dqbuf] ∧
    detLoop (DetStep.dqFailStopped :: drest) = [Ev.ioc IoK.dqbuf] :=
  ⟨rfl, rfl, rfl, rfl⟩
